import Mathlib

/-!
# Verification of the Reflect interview-orchestrator

Shallow embedding of the voice-interview orchestration state machine
(`useInterview` reducer and loop), the speech helpers (`calculateWPM`,
`useSpeechRecognition.startListening`), and the `/api/chat` route handlers.
JavaScript numbers are modelled as rationals (`ℚ`), `Math.round` as
`jsRound`, nullable fields as `Option`, and the JSON values crossing the
route boundary as a small `JValue` type.  The asynchronous loop is modelled
by an explicit per-round environment (capture outcome, network outcome,
speech outcome, cancellation point) and the list of reducer actions the
loop dispatches for that environment.
-/

namespace Reflect

/-- The four interview phases (`InterviewState.phase` in `types/index.ts`). -/
inductive Phase
  | idle
  | listening
  | processing
  | speaking
  deriving DecidableEq, Repr

/-- Tone categories of `AnalysisMetrics.tone`. -/
inductive Tone
  | professional
  | uncertain
  | casual
  | aggressive
  deriving DecidableEq, Repr

/-- Metrics for a single user response (`AnalysisMetrics` in `types/index.ts`).
JS numbers are modelled as rationals. -/
structure AnalysisMetrics where
  confidence_score : ℚ
  pacing_wpm : ℚ
  clarity_score : ℚ
  tone : Tone
  feedback_text : String
  deriving DecidableEq, Repr

/-- Constant `EMPTY_METRICS` from `types/index.ts`. -/
def EMPTY_METRICS : AnalysisMetrics :=
  { confidence_score := 0
    pacing_wpm := 0
    clarity_score := 0
    tone := Tone.professional
    feedback_text := "" }

/-- Message roles (`Message.role`). -/
inductive Role
  | user
  | assistant
  | system
  deriving DecidableEq, Repr

/-- A single conversation message (`Message` in `types/index.ts`). -/
structure Message where
  role : Role
  content : String
  deriving DecidableEq, Repr

/-- The complete session state (`InterviewState` in `types/index.ts`);
`error: string | null` becomes `Option String`. -/
structure InterviewState where
  phase : Phase
  transcript : String
  history : List Message
  stats : AnalysisMetrics
  allStats : List AnalysisMetrics
  error : Option String
  deriving DecidableEq, Repr

/-- Constant `initialState` from `useInterview.ts`. -/
def initialState : InterviewState :=
  { phase := Phase.idle
    transcript := ""
    history := []
    stats := EMPTY_METRICS
    allStats := []
    error := none }

/-- The reducer's action union (`Action` in `useInterview.ts`).  The optional
`isOpening` flag of `RECEIVE_RESPONSE` is made an explicit `Bool` (absent =
`false`, matching JS truthiness of `undefined`). -/
inductive Action
  | START_LISTENING
  | UPDATE_TRANSCRIPT (transcript : String)
  | START_PROCESSING (transcript : String)
  | START_SPEAKING
  | RECEIVE_RESPONSE (reply : String) (analysis : AnalysisMetrics) (isOpening : Bool)
  | FINISH_SPEAKING
  | SET_ERROR (error : String)
  | RESET
  deriving DecidableEq, Repr

/-- The pure state-transition function `reducer(state, action)` of
`useInterview.ts`, transcribed case by case. -/
def reducer (state : InterviewState) (action : Action) : InterviewState :=
  match action with
  | Action.START_LISTENING =>
      { state with phase := Phase.listening, transcript := "", error := none }
  | Action.UPDATE_TRANSCRIPT t =>
      { state with transcript := t }
  | Action.START_PROCESSING t =>
      { state with
          phase := Phase.processing
          history := state.history ++ [{ role := Role.user, content := t }] }
  | Action.RECEIVE_RESPONSE reply analysis isOpening =>
      { state with
          stats := analysis
          allStats := if isOpening then state.allStats else state.allStats ++ [analysis]
          history := state.history ++ [{ role := Role.assistant, content := reply }] }
  | Action.START_SPEAKING =>
      { state with phase := Phase.speaking }
  | Action.FINISH_SPEAKING =>
      { state with phase := Phase.idle }
  | Action.SET_ERROR e =>
      { state with phase := Phase.idle, error := some e }
  | Action.RESET =>
      initialState

-- ─── JavaScript string and number helpers ────────────────────

/-- JavaScript `String.prototype.trim()`: drop leading and trailing
whitespace.  (Implemented structurally on the character list so that it
evaluates inside the kernel; `String.trim` in core is definitionally
opaque.) -/
def jsTrim (s : String) : String :=
  String.mk (((s.data.dropWhile Char.isWhitespace).reverse.dropWhile
    Char.isWhitespace).reverse)

/-- Helper for `split(/\s+/)`-style splitting: cut the character list at
every whitespace character, accumulating the current piece in `acc`
(reversed). -/
def splitWSAux : List Char → List Char → List String
  | [], acc => [String.mk acc.reverse]
  | c :: cs, acc =>
      if c.isWhitespace then String.mk acc.reverse :: splitWSAux cs []
      else splitWSAux cs (c :: acc)

/-- Word count `transcript.trim().split(/\s+/).length`: on a trimmed string, a split on
whitespace runs equals a split on single whitespace characters with the
empty pieces dropped. -/
def wordCount (s : String) : ℕ :=
  ((splitWSAux (jsTrim s).data []).filter fun w => w ≠ "").length

/-- JavaScript `Math.round`: round half toward positive infinity. -/
def jsRound (q : ℚ) : ℤ := ⌊q + 1 / 2⌋

/-- Function `calculateWPM(transcript, durationSeconds)` from `app/lib/speech.ts`:
returns `0` on blank transcript or non-positive duration, otherwise
`Math.round((wordCount / durationSeconds) * 60)`. -/
def calculateWPM (transcript : String) (durationSeconds : ℚ) : ℚ :=
  if jsTrim transcript = "" ∨ durationSeconds ≤ 0 then 0
  else ((jsRound ((wordCount transcript : ℚ) / durationSeconds * 60) : ℤ) : ℚ)

-- ─── The orchestration loop (useInterview.ts) ────────────────

/-- The typed payload of a successful `/api/chat` response as the client
reads it (`APIResponse` in `types/index.ts`). -/
structure APIResponse where
  reply : String
  analysis : AnalysisMetrics
  deriving DecidableEq, Repr

/-- The opening question spoken by `startInterview`. -/
def OPENING_QUESTION : String :=
  "Welcome to your mock interview. Let\u0027s start with a classic: Tell me about a time you faced a significant challenge at work. What happened, and how did you handle it?"

/-- The sentinel substituted for a silent answer (`useInterview.ts:139`). -/
def SILENCE_PLACEHOLDER : String :=
  "(The user was silent and didn\u0027t respond.)"

/-- Result of `await startListening()` in the loop: either a resolved
`{transcript, duration}` or a rejection with a message. -/
inductive CaptureOutcome
  | ok (transcript : String) (duration : ℚ)
  | err (message : String)
  deriving DecidableEq, Repr

/-- Result of the network exchange in the loop.  `fail` models a rejected
`fetch` (transport failure).  `resp ok body errMsg` models a resolved
response: `ok` is `res.ok`; `body` is the typed value `res.json()` resolves
with on the success path (`none` means the body is not parseable, so
`res.json()` rejects); `errMsg` is the message of the error reaching the
`catch` block when `res` is not ok (`err.error || 'API error: …'`) or when
the body parse rejects. -/
inductive FetchOutcome
  | fail (message : String)
  | resp (ok : Bool) (body : Option APIResponse) (errMsg : String)
  deriving DecidableEq, Repr

/-- Where, if anywhere, `endInterview()` is called while the current loop
iteration is suspended.  Each constructor names one `await` of `runLoop`:
`startListening()` (line 121), `fetch` (line 154), `res.json()`
(lines 172/176), `speak` (line 191). -/
inductive CancelPoint
  | never
  | duringCapture
  | duringFetch
  | duringJson
  | duringSpeak
  deriving DecidableEq, Repr

/-- The environment of one loop iteration: what each asynchronous
collaborator does, and whether/where the user ends the interview.
`speakErr = some m` means `await speak(data.reply)` rejects with message
`m`; `none` means it resolves. -/
structure RoundEnv where
  cap : CaptureOutcome
  net : FetchOutcome
  speakErr : Option String
  cancel : CancelPoint
  deriving DecidableEq, Repr

/-- What one `runLoop` iteration does: the reducer actions dispatched in
order (including the `FINISH_SPEAKING` dispatched by `endInterview` itself
at the cancellation point), the request body sent to `/api/chat` if the
round reaches the fetch, and the value of `isRunningRef.current` when the
iteration returns. -/
structure RoundResult where
  actions : List Action
  request : Option (List Message)
  running : Bool
  deriving DecidableEq, Repr

/-- JavaScript `array.slice(-10)`: the last ten elements (all of them when
fewer). -/
def sliceLast10 (l : List Message) : List Message :=
  l.drop (l.length - 10)

/-- One iteration of `runLoop` (`useInterview.ts:114-204`), transcribed as
the sequence of dispatched actions for a given round environment.  `hist`
is `historyRef.current` when the request body is built (line 152): the
session history as of the start of the iteration, since no render happens
between the `START_PROCESSING` dispatch and the fetch.  A cancellation at
suspension point `p` makes every later read of `isRunningRef.current`
false and inserts `endInterview`'s own `FINISH_SPEAKING` dispatch at `p`;
the `catch` blocks run without a run-flag check, exactly as in the source. -/
def runLoop (hist : List Message) (env : RoundEnv) : RoundResult :=
  -- dispatch START_LISTENING (line 116), then await startListening()
  let cancelCapture : List Action :=
    if env.cancel = CancelPoint.duringCapture then [Action.FINISH_SPEAKING] else []
  let runningAfterCapture : Bool := env.cancel ≠ CancelPoint.duringCapture
  match env.cap with
  | CaptureOutcome.err m =>
      -- lines 124-130: catch → SET_ERROR, return
      { actions := [Action.START_LISTENING] ++ cancelCapture ++ [Action.SET_ERROR m]
        request := none
        running := runningAfterCapture }
  | CaptureOutcome.ok text dur =>
      if ¬ runningAfterCapture then
        -- line 133: bail out if the interview was ended during listening
        { actions := [Action.START_LISTENING] ++ cancelCapture
          request := none
          running := false }
      else
        -- lines 136-144: silence branch; the placeholder replaces
        -- `finalTranscript` only AFTER the dispatches
        let silent : Bool := jsTrim text = ""
        let finalTranscript := if silent then SILENCE_PLACEHOLDER else text
        let duration : ℚ := if silent then 0 else dur
        let transcriptActions : List Action :=
          if silent then
            [Action.UPDATE_TRANSCRIPT "", Action.START_PROCESSING ""]
          else
            [Action.UPDATE_TRANSCRIPT text, Action.START_PROCESSING text]
        let preFetch := [Action.START_LISTENING] ++ cancelCapture ++ transcriptActions
        -- line 147: playAudio (fire-and-forget, no session-state effect)
        -- lines 151-163: build the request from the last 10 history entries
        let request := sliceLast10 hist ++ [{ role := Role.user, content := finalTranscript }]
        let cancelFetch : List Action :=
          if env.cancel = CancelPoint.duringFetch then [Action.FINISH_SPEAKING] else []
        let runningAfterFetch : Bool :=
          runningAfterCapture && env.cancel ≠ CancelPoint.duringFetch
        match env.net with
        | FetchOutcome.fail m =>
            -- fetch rejected → catch (lines 197-203): stopAudio, SET_ERROR
            { actions := preFetch ++ cancelFetch ++ [Action.SET_ERROR m]
              request := some request
              running := runningAfterFetch }
        | FetchOutcome.resp ok body errMsg =>
            if ¬ runningAfterFetch then
              -- lines 166-169: bail out, stopAudio
              { actions := preFetch ++ cancelFetch
                request := some request
                running := false }
            else
              let cancelJson : List Action :=
                if env.cancel = CancelPoint.duringJson then [Action.FINISH_SPEAKING] else []
              let runningAfterJson : Bool :=
                runningAfterFetch && env.cancel ≠ CancelPoint.duringJson
              if ¬ ok then
                -- lines 171-174: await res.json(), throw → catch → SET_ERROR
                { actions := preFetch ++ cancelJson ++ [Action.SET_ERROR errMsg]
                  request := some request
                  running := runningAfterJson }
              else
                match body with
                | none =>
                    -- line 176: res.json() rejects → catch → SET_ERROR
                    { actions := preFetch ++ cancelJson ++ [Action.SET_ERROR errMsg]
                      request := some request
                      running := runningAfterJson }
                | some data =>
                    -- lines 179-185: client-side WPM overrides the endpoint
                    -- pacing value; NOTE no run-flag check after res.json()
                    let wpm := calculateWPM finalTranscript duration
                    let analysis := { data.analysis with pacing_wpm := wpm }
                    let recv : List Action :=
                      [Action.RECEIVE_RESPONSE data.reply analysis false,
                       Action.START_SPEAKING]
                    let cancelSpeak : List Action :=
                      if env.cancel = CancelPoint.duringSpeak then [Action.FINISH_SPEAKING] else []
                    let runningAfterSpeak : Bool :=
                      runningAfterJson && env.cancel ≠ CancelPoint.duringSpeak
                    match env.speakErr with
                    | some m =>
                        -- speak rejected → catch: stopAudio, SET_ERROR
                        { actions := preFetch ++ cancelJson ++ recv ++ cancelSpeak
                            ++ [Action.SET_ERROR m]
                          request := some request
                          running := runningAfterSpeak }
                    | none =>
                        if runningAfterSpeak then
                          -- line 196
                          { actions := preFetch ++ cancelJson ++ recv ++ cancelSpeak
                              ++ [Action.FINISH_SPEAKING]
                            request := some request
                            running := true }
                        else
                          -- line 194: bail out after speaking
                          { actions := preFetch ++ cancelJson ++ recv ++ cancelSpeak
                            request := some request
                            running := false }

/-- The dispatches of `startInterview` before the loop
(`useInterview.ts:215-232`): `RESET`, the opening reply flagged
`isOpening`, `START_SPEAKING`, then `await speak(OPENING_QUESTION)` (a
failure is swallowed) and an unconditional `FINISH_SPEAKING`.
`cancelledDuringOpening` says whether `endInterview` is called while the
opening question is being spoken, which inserts its `FINISH_SPEAKING` and
clears the run flag. -/
def openingActions (cancelledDuringOpening : Bool) : List Action :=
  [Action.RESET,
   Action.RECEIVE_RESPONSE OPENING_QUESTION EMPTY_METRICS true,
   Action.START_SPEAKING]
  ++ (if cancelledDuringOpening then [Action.FINISH_SPEAKING] else [])
  ++ [Action.FINISH_SPEAKING]

/-- The `while (isRunningRef.current) await runLoop()` driver
(`useInterview.ts:235-237`): run successive iterations with the given
environments while the run flag holds, threading the session state (whose
`history` is what `historyRef.current` exposes to the next iteration) and
collecting every dispatched action. -/
def runRounds (s : InterviewState) : List RoundEnv → List Action
  | [] => []
  | env :: rest =>
      let r := runLoop s.history env
      r.actions ++ (if r.running then runRounds (r.actions.foldl reducer s) rest else [])

/-- All actions dispatched by a session: `startInterview` from state `s`
(guarded calls are a no-op and dispatch nothing — see `startInterview`),
then the loop, whose iterations consume `rounds` while the run flag is
still set. -/
def sessionActions (cancelledDuringOpening : Bool) (rounds : List RoundEnv) : List Action :=
  openingActions cancelledDuringOpening
    ++ (if cancelledDuringOpening then []
        else runRounds ((openingActions cancelledDuringOpening).foldl reducer initialState)
          rounds)

/-- Function `startInterview` (`useInterview.ts:211-238`) seen from outside: given
the current run flag and session state, return the state after the
synchronous guard/opening part, the new run flag, and whether a loop was
entered.  A call while already running returns immediately (line 212). -/
def startInterview (running : Bool) (s : InterviewState)
    (cancelledDuringOpening : Bool) : InterviewState × Bool × Bool :=
  if running then (s, running, false)
  else ((openingActions cancelledDuringOpening).foldl reducer s,
        !cancelledDuringOpening, true)

-- ─── The /api/chat route handlers ────────────────────────────

/-- JSON values crossing the route boundary. -/
inductive JValue
  | null
  | bool (b : Bool)
  | num (q : ℚ)
  | str (s : String)
  | arr (elems : List JValue)
  | obj (fields : List (String × JValue))

/-- Property access `v.k`: a field lookup on an object, `undefined`
(`none`) otherwise. -/
def getField (v : JValue) (k : String) : Option JValue :=
  match v with
  | JValue.obj fields => (fields.find? fun f => f.fst = k).map Prod.snd
  | _ => none

/-- JavaScript truthiness of a possibly-`undefined` value. -/
def jsTruthy : Option JValue → Bool
  | none => false
  | some JValue.null => false
  | some (JValue.bool b) => b
  | some (JValue.num q) => q ≠ 0
  | some (JValue.str s) => s ≠ ""
  | some (JValue.arr _) => true
  | some (JValue.obj _) => true

/-- Check `typeof v` for a string, applied to a possibly-`undefined` value. -/
def isStringJ : Option JValue → Bool
  | some (JValue.str _) => true
  | _ => false

/-- Constant `FALLBACK_RESPONSE` from `app/api/chat/route.ts`. -/
def FALLBACK_RESPONSE : APIResponse :=
  { reply := "I\u0027m having trouble processing that. Could you try rephrasing your answer?"
    analysis :=
      { confidence_score := 50
        pacing_wpm := 0
        clarity_score := 50
        tone := Tone.professional
        feedback_text := "Take a moment to organize your thoughts before responding." } }

/-- The string form of a tone, as serialized in a JSON payload. -/
def toneString : Tone → String
  | Tone.professional => "professional"
  | Tone.uncertain => "uncertain"
  | Tone.casual => "casual"
  | Tone.aggressive => "aggressive"

/-- Serialize metrics to their JSON shape. -/
def encodeMetrics (m : AnalysisMetrics) : JValue :=
  JValue.obj
    [("confidence_score", JValue.num m.confidence_score),
     ("pacing_wpm", JValue.num m.pacing_wpm),
     ("clarity_score", JValue.num m.clarity_score),
     ("tone", JValue.str (toneString m.tone)),
     ("feedback_text", JValue.str m.feedback_text)]

/-- Serialize a reply+metrics payload to its JSON shape. -/
def encodeAPIResponse (r : APIResponse) : JValue :=
  JValue.obj [("reply", JValue.str r.reply), ("analysis", encodeMetrics r.analysis)]

/-- JSON body of the form error-message object. -/
def errorBody (message : String) : JValue :=
  JValue.obj [("error", JValue.str message)]

/-- What the upstream OpenAI exchange does, seen from the route handler:
the `openai.chat.completions.create` call rejects (`transportError`), it
resolves without message content (`noContent`), or it resolves with
content whose `JSON.parse` result is `some v` (or `none` when parsing
throws `SyntaxError`). -/
inductive UpstreamOutcome
  | transportError (message : String)
  | noContent
  | content (parsed : Option JValue)

/-- The request as the handler's validation sees it: body without a
`messages` array, a message missing `role`/string `content`, or a valid
message list. -/
inductive RequestCheck
  | invalidMessages
  | invalidFormat
  | valid (messages : List Message)

/-- HTTP response from the route: status code plus JSON body. -/
structure RouteReply where
  status : ℕ
  body : JValue

/-- The `POST` handler of `app/api/chat/route.ts`, transcribed: 400s for a
malformed client request; otherwise every upstream failure — transport
error, missing content, unparseable content, or a parsed payload whose
`reply` is not a string or whose `analysis` is falsy — is swallowed into a
200 response carrying `FALLBACK_RESPONSE`; a structurally valid payload is
returned as-is (no field-level sanitization). -/
def POST (req : RequestCheck) (up : UpstreamOutcome) : RouteReply :=
  match req with
  | RequestCheck.invalidMessages =>
      { status := 400, body := errorBody "Invalid request: messages array required" }
  | RequestCheck.invalidFormat =>
      { status := 400, body := errorBody "Invalid message format: role and content required" }
  | RequestCheck.valid _ =>
      match up with
      | UpstreamOutcome.transportError _ =>
          { status := 200, body := encodeAPIResponse FALLBACK_RESPONSE }
      | UpstreamOutcome.noContent =>
          { status := 200, body := encodeAPIResponse FALLBACK_RESPONSE }
      | UpstreamOutcome.content none =>
          { status := 200, body := encodeAPIResponse FALLBACK_RESPONSE }
      | UpstreamOutcome.content (some v) =>
          if ¬ isStringJ (getField v "reply") ∨ ¬ jsTruthy (getField v "analysis") then
            { status := 200, body := encodeAPIResponse FALLBACK_RESPONSE }
          else
            { status := 200, body := v }

/-- Constant `VALID_TONES` from the alternate handler in `src/unnamed/part_004`. -/
def VALID_TONES : List String := ["professional", "uncertain", "casual", "aggressive"]

/-- Function `clampScore(value, min, max)` from `src/unnamed/part_004`: `0` unless
the value is a number, else `Math.max(min, Math.min(max, Math.round(value)))`. -/
def clampScore (value : Option JValue) (lo hi : ℤ) : ℚ :=
  match value with
  | some (JValue.num q) => ((max lo (min hi (jsRound q))) : ℤ)
  | _ => 0

/-- The tone value selected by `sanitizeAnalysis`: the raw tone if it is
one of `VALID_TONES`, else the default. -/
def toneOfString (s : String) : Tone :=
  if s = "uncertain" then Tone.uncertain
  else if s = "casual" then Tone.casual
  else if s = "aggressive" then Tone.aggressive
  else Tone.professional

/-- Function `sanitizeAnalysis(raw)` from `src/unnamed/part_004`: clamp the scores
to 0–100, force `pacing_wpm` to 0, coerce an out-of-enum (or non-string)
tone to `professional`, default a non-string feedback to the empty string. -/
def sanitizeAnalysis (raw : JValue) : AnalysisMetrics :=
  { confidence_score := clampScore (getField raw "confidence_score") 0 100
    pacing_wpm := 0
    clarity_score := clampScore (getField raw "clarity_score") 0 100
    tone :=
      match getField raw "tone" with
      | some (JValue.str s) =>
          if VALID_TONES.contains s then toneOfString s else Tone.professional
      | _ => Tone.professional
    feedback_text :=
      match getField raw "feedback_text" with
      | some (JValue.str s) => s
      | _ => "" }

/-- The alternate `POST` handler found in `src/unnamed/part_004`: the same
upstream exchange, but failures become explicit error statuses (500 for a
transport error, 502 for missing/unparseable/malformed content) and a
valid payload is re-emitted with its analysis passed through
`sanitizeAnalysis`.  (No per-message format validation in this version.) -/
def POSTalt (messagesValid : Bool) (up : UpstreamOutcome) : RouteReply :=
  if ¬ messagesValid then
    { status := 400, body := errorBody "Invalid request: messages array required" }
  else
    match up with
    | UpstreamOutcome.transportError m =>
        { status := 500, body := errorBody m }
    | UpstreamOutcome.noContent =>
        { status := 502, body := errorBody "No response from OpenAI" }
    | UpstreamOutcome.content none =>
        { status := 502, body := errorBody "OpenAI returned invalid JSON" }
    | UpstreamOutcome.content (some v) =>
        match getField v "reply", getField v "analysis" with
        | some (JValue.str reply), some analysis =>
            if jsTruthy (some analysis) then
              { status := 200
                body := JValue.obj
                  [("reply", JValue.str reply),
                   ("analysis", encodeMetrics (sanitizeAnalysis analysis))] }
            else
              { status := 502, body := errorBody "Invalid response structure from OpenAI" }
        | _, _ =>
            { status := 502, body := errorBody "Invalid response structure from OpenAI" }

-- ─── useSpeechRecognition : startListening ───────────────────

/-- One entry of `event.results` as the `onresult` handler reads it:
`result.isFinal` and `result[0].transcript`. -/
structure SRResult where
  isFinal : Bool
  transcript : String
  deriving DecidableEq, Repr

/-- The `finalTranscript` accumulation of one `onresult` event
(`useSpeechRecognition.ts:79-97`): the handler resets the variable and
concatenates the transcripts of the finalized results, in order. -/
def onresultFinal (results : List SRResult) : String :=
  results.foldl (fun acc r => if r.isFinal then acc ++ r.transcript else acc) ""

/-- The interim text of one `onresult` event: the concatenation of the
non-finalized results (shown live, never resolved). -/
def onresultInterim (results : List SRResult) : String :=
  results.foldl (fun acc r => if r.isFinal then acc else acc ++ r.transcript) ""

/-- The value of the captured `finalTranscript` variable when recognition
ends, given the sequence of `onresult` events (each carrying the full
cumulative results list): the handler rewrites the variable from scratch
on every event, so only the last event's finalized results survive; with
no events it stays `""`.  `onend` resolves `startListening()` with exactly
this string (`useSpeechRecognition.ts:99-105`). -/
def resolvedTranscript (events : List (List SRResult)) : String :=
  events.foldl (fun _ ev => onresultFinal ev) ""

-- ─── Phase-transition machinery ──────────────────────────────

/-- The phase reached from `p` by one reducer action (the phase component
of `reducer`, which depends only on the action and the current phase). -/
def phaseAfter (p : Phase) : Action → Phase
  | Action.START_LISTENING => Phase.listening
  | Action.UPDATE_TRANSCRIPT _ => p
  | Action.START_PROCESSING _ => Phase.processing
  | Action.START_SPEAKING => Phase.speaking
  | Action.RECEIVE_RESPONSE _ _ _ => p
  | Action.FINISH_SPEAKING => Phase.idle
  | Action.SET_ERROR _ => Phase.idle
  | Action.RESET => Phase.idle

/-- The §4.1 transition table as a relation on phases: the distinct-phase
moves a session may make (start, the listen→process→speak→idle round, the
two error aborts, and end-of-interview resets to idle). -/
def phaseTable (p q : Phase) : Bool :=
  match p, q with
  | Phase.idle, Phase.speaking => true
  | Phase.idle, Phase.listening => true
  | Phase.listening, Phase.processing => true
  | Phase.listening, Phase.idle => true
  | Phase.processing, Phase.speaking => true
  | Phase.processing, Phase.idle => true
  | Phase.speaking, Phase.idle => true
  | _, _ => false

/-- One observable step: either the phase is unchanged (the dispatch did
not move the machine) or the move is a row of the §4.1 table. -/
def allowedStep (p q : Phase) : Prop := p = q ∨ phaseTable p q = true

/-- The sequence of session states produced by dispatching `acts` in order
from `s` (including `s` itself). -/
def stateTrace (s : InterviewState) : List Action → List InterviewState
  | [] => [s]
  | a :: rest => s :: stateTrace (reducer s a) rest

/-- All phase steps along an action list from phase `p` are allowed. -/
def phasesOk : Phase → List Action → Prop
  | _, [] => True
  | p, a :: rest => allowedStep p (phaseAfter p a) ∧ phasesOk (phaseAfter p a) rest

-- ─── Classifying round environments ──────────────────────────

/-- Whether the upstream exchange of a `POST` call failed in one of the
ways the handler must absorb: the call rejected, content was missing or
unparseable, or the parsed payload lacks a string `reply` or a truthy
`analysis`. -/
def upstreamFailed : UpstreamOutcome → Bool
  | UpstreamOutcome.transportError _ => true
  | UpstreamOutcome.noContent => true
  | UpstreamOutcome.content none => true
  | UpstreamOutcome.content (some v) =>
      !(isStringJ (getField v "reply") && jsTruthy (getField v "analysis"))

/-- Whether a round environment delivers a real analysis to the reducer: the
capture resolved, the fetch resolved ok with a parseable body, and the
interview was not ended before the body was handed over (an `end` during
the body read does NOT stop the dispatch — see the loop). -/
def roundAnalyzed (env : RoundEnv) : Bool :=
  match env.cap, env.net with
  | CaptureOutcome.ok _ _, FetchOutcome.resp true (some _) _ =>
      env.cancel ≠ CancelPoint.duringCapture && env.cancel ≠ CancelPoint.duringFetch
  | _, _ => false

/-- Number of executed rounds of a session that deliver a real analysis,
mirroring the recursion of `runRounds`: rounds after the run flag is
cleared never execute and are not counted. -/
def analyzedCount (s : InterviewState) : List RoundEnv → ℕ
  | [] => 0
  | env :: rest =>
      let r := runLoop s.history env
      (if roundAnalyzed env then 1 else 0) +
        (if r.running then analyzedCount (r.actions.foldl reducer s) rest else 0)

-- ═══ Theorems ════════════════════════════════════════════════

-- ─── Helper lemmas ───────────────────────────────────────────

/-- Folding a constant-result function over a list evaluates the last
element (or keeps the seed on an empty list). -/
theorem foldl_const_eval {α β : Type} (l : List α) (f : α → β) (init : β) :
    l.foldl (fun _ x => f x) init = (match l.getLast? with
      | none => init
      | some x => f x) := by
  induction l generalizing init with
  | nil => rfl
  | cons a as ih =>
      cases as with
      | nil => rfl
      | cons b bs =>
          rw [List.foldl_cons, ih, List.getLast?_cons_cons]
          cases h : (b :: bs).getLast? with
          | none => simp at h
          | some x => simp [h]

/-- Pulling the accumulator out of the `onresult` fold over the finalized
results. -/
theorem onresultFinal_foldl_out (ev : List SRResult) (acc : String) :
    ev.foldl (fun acc r => if r.isFinal then acc ++ r.transcript else acc) acc
      = acc ++ onresultFinal ev := by
  induction ev generalizing acc with
  | nil => simp [onresultFinal]
  | cons r rs ih =>
      by_cases hf : r.isFinal
      · simp only [onresultFinal, List.foldl_cons, hf, if_true]
        rw [ih, ih (("" : String) ++ r.transcript)]
        simp [String.append_assoc]
      · simp only [onresultFinal, List.foldl_cons, hf, if_false]
        rw [ih]
        rfl

/-- Interim results contribute nothing to the finalized concatenation. -/
theorem onresultFinal_filter (ev : List SRResult) :
    onresultFinal ev = onresultFinal (ev.filter fun r => r.isFinal) := by
  induction ev with
  | nil => rfl
  | cons r rs ih =>
      by_cases hf : r.isFinal
      · rw [List.filter_cons_of_pos (by simp [hf])]
        simp only [onresultFinal, List.foldl_cons, hf, if_true]
        rw [onresultFinal_foldl_out, onresultFinal_foldl_out, ih]
      · simp only [onresultFinal, List.foldl_cons, hf, if_false]
        rw [List.filter_cons_of_neg (by simp [hf])]
        exact ih

/-- Characterization of the string-typeof check. -/
theorem isStringJ_iff (o : Option JValue) :
    isStringJ o = true ↔ ∃ s, o = some (JValue.str s) := by
  rcases o with _ | v
  · simp [isStringJ]
  · cases v <;> simp [isStringJ]

/-- Scores sanitized by the alternate handler always land in 0–100. -/
theorem clampScore_bounds (value : Option JValue) :
    0 ≤ clampScore value 0 100 ∧ clampScore value 0 100 ≤ 100 := by
  rcases value with _ | v
  · simp [clampScore]
  · cases v with
    | num q =>
        have h1 : (0 : ℤ) ≤ max 0 (min 100 (jsRound q)) := le_max_left _ _
        have h2 : max 0 (min 100 (jsRound q)) ≤ 100 :=
          max_le (by norm_num) (min_le_left _ _)
        constructor
        · show (0 : ℚ) ≤ ((max 0 (min 100 (jsRound q)) : ℤ) : ℚ)
          exact_mod_cast h1
        · show ((max 0 (min 100 (jsRound q)) : ℤ) : ℚ) ≤ 100
          exact_mod_cast h2
    | null => simp [clampScore]
    | bool b => simp [clampScore]
    | str s => simp [clampScore]
    | arr l => simp [clampScore]
    | obj l => simp [clampScore]

/-- Folding the opening dispatches is independent of the state the session
was in before `start()` — the first dispatch is `RESET` — which justifies
`sessionActions` threading `initialState` into the loop driver. -/
theorem openingActions_foldl_from_any (s : InterviewState) (oc : Bool) :
    (openingActions oc).foldl reducer s = (openingActions oc).foldl reducer initialState := by
  cases oc <;> simp [openingActions, reducer]

/-- Phase component of the reducer depends only on the current phase and
the action. -/
theorem reducer_phase (s : InterviewState) (a : Action) :
    (reducer s a).phase = phaseAfter s.phase a := by
  cases a <;> simp [reducer, phaseAfter, initialState]

/-- Phase after folding a whole action list. -/
theorem foldl_reducer_phase (acts : List Action) (s : InterviewState) :
    (acts.foldl reducer s).phase = acts.foldl phaseAfter s.phase := by
  induction acts generalizing s with
  | nil => rfl
  | cons a rest ih => rw [List.foldl_cons, List.foldl_cons, ih, reducer_phase]

/-- Splitting `phasesOk` over a concatenation. -/
theorem phasesOk_append (xs ys : List Action) (p : Phase) :
    phasesOk p (xs ++ ys) ↔ phasesOk p xs ∧ phasesOk (xs.foldl phaseAfter p) ys := by
  induction xs generalizing p with
  | nil => simp [phasesOk]
  | cons a rest ih => simp [phasesOk, ih, and_assoc]

/-- Chained allowed steps along the state trace coincide with `phasesOk`. -/
theorem chain_stateTrace (acts : List Action) (s : InterviewState) :
    List.Chain' (fun a b => allowedStep a.phase b.phase) (stateTrace s acts) ↔
      phasesOk s.phase acts := by
  induction acts generalizing s with
  | nil => simp [stateTrace, phasesOk]
  | cons a rest ih =>
      have hh : (stateTrace (reducer s a) rest).head? = some (reducer s a) := by
        cases rest <;> rfl
      rw [stateTrace, List.chain'_cons', hh, ih]
      simp [phasesOk, reducer_phase]

/-- Every loop iteration starts and, when still running, ends in phase
`idle`, and all its phase steps are allowed. -/
theorem runLoop_phasesOk (hist : List Message) (env : RoundEnv) :
    phasesOk Phase.idle (runLoop hist env).actions ∧
    ((runLoop hist env).running = true →
      (runLoop hist env).actions.foldl phaseAfter Phase.idle = Phase.idle) := by
  obtain ⟨cap, net, speakErr, cancel⟩ := env
  cases cap with
  | err m =>
      cases cancel <;>
        simp [runLoop, phasesOk, phaseAfter, allowedStep, phaseTable]
  | ok t d =>
      by_cases hs : jsTrim t = "" <;>
      cases net with
      | fail m =>
          cases cancel <;>
            simp [runLoop, hs, phasesOk, phaseAfter, allowedStep, phaseTable]
      | resp ok body errMsg =>
          cases ok <;> rcases body with _ | data <;> rcases speakErr with _ | m <;>
            cases cancel <;>
            simp [runLoop, hs, phasesOk, phaseAfter, allowedStep, phaseTable]

/-- Phase steps across a whole run of rounds started in `idle` are allowed. -/
theorem runRounds_phasesOk (rounds : List RoundEnv) (s : InterviewState)
    (hs : s.phase = Phase.idle) :
    phasesOk Phase.idle (runRounds s rounds) := by
  induction rounds generalizing s with
  | nil => simp [runRounds, phasesOk]
  | cons env rest ih =>
      rw [runRounds]
      rw [phasesOk_append]
      obtain ⟨h1, h2⟩ := runLoop_phasesOk s.history env
      refine ⟨h1, ?_⟩
      by_cases hr : (runLoop s.history env).running = true
      · rw [if_pos hr, h2 hr]
        refine ih _ ?_
        rw [foldl_reducer_phase, hs, h2 hr]
      · rw [if_neg hr]
        cases hfold : (runLoop s.history env).actions.foldl phaseAfter Phase.idle <;>
          simp [phasesOk]

/-- Phase steps of the opening dispatches are allowed from any phase, and
they always land in `idle`. -/
theorem openingActions_phasesOk (p : Phase) (oc : Bool) :
    phasesOk p (openingActions oc) ∧
    (openingActions oc).foldl phaseAfter p = Phase.idle := by
  cases p <;> cases oc <;>
    simp [openingActions, phasesOk, phaseAfter, allowedStep, phaseTable]

/-- Effect of one loop iteration on the length of `allStats`: exactly one
entry is appended when the environment delivers a real analysis, none
otherwise. -/
theorem runLoop_allStats (hist : List Message) (env : RoundEnv) (s : InterviewState) :
    ((runLoop hist env).actions.foldl reducer s).allStats.length =
      s.allStats.length + (if roundAnalyzed env then 1 else 0) := by
  obtain ⟨cap, net, speakErr, cancel⟩ := env
  cases cap with
  | err m =>
      cases cancel <;>
        simp [runLoop, reducer, roundAnalyzed]
  | ok t d =>
      by_cases hs : jsTrim t = "" <;>
      cases net with
      | fail m =>
          cases cancel <;>
            simp [runLoop, hs, reducer, roundAnalyzed]
      | resp ok body errMsg =>
          cases ok <;> rcases body with _ | data <;> rcases speakErr with _ | m <;>
            cases cancel <;>
            simp [runLoop, hs, reducer, roundAnalyzed]

/-- Accumulated effect of a run of rounds on the length of `allStats`. -/
theorem runRounds_allStats (rounds : List RoundEnv) (s : InterviewState) :
    ((runRounds s rounds).foldl reducer s).allStats.length =
      s.allStats.length + analyzedCount s rounds := by
  induction rounds generalizing s with
  | nil => simp [runRounds, analyzedCount]
  | cons env rest ih =>
      rw [runRounds, analyzedCount]
      rw [List.foldl_append]
      by_cases hr : (runLoop s.history env).running = true
      · rw [if_pos hr, if_pos hr, ih, runLoop_allStats]
        ring
      · rw [if_neg hr, if_neg hr, List.foldl_nil, runLoop_allStats]
        omega

-- ─── Claim theorems ──────────────────────────────────────────

set_option maxRecDepth 8000 in
/-- C1: the claim says that after `end()` at any suspension point the
session settles at `phase = idle` with no further history/metrics
mutation, every `await` being followed by a run-flag check before the next
mutation.  The code violates this at the `await res.json()` suspension
point (the response-body read, part of the in-flight network request):
ending the interview there still lets the resolved body dispatch
`RECEIVE_RESPONSE` and `START_SPEAKING`.  Concretely: right after
`endInterview` the state is `idle` with no metrics (trace index 8), yet
the final state of the session has an appended metrics entry, three
history turns, and `phase = speaking`, with the run flag off. -/
theorem cancel_during_body_read_mutates_after_end :
    (((sessionActions false
        [{ cap := CaptureOutcome.ok "I led the project" 5
           net := FetchOutcome.resp true
             (some { reply := "Tell me more.", analysis := EMPTY_METRICS }) ""
           speakErr := none
           cancel := CancelPoint.duringJson }]).foldl reducer initialState).phase =
      Phase.speaking) ∧
    (((sessionActions false
        [{ cap := CaptureOutcome.ok "I led the project" 5
           net := FetchOutcome.resp true
             (some { reply := "Tell me more.", analysis := EMPTY_METRICS }) ""
           speakErr := none
           cancel := CancelPoint.duringJson }]).foldl reducer initialState).allStats.length =
      1) ∧
    (((sessionActions false
        [{ cap := CaptureOutcome.ok "I led the project" 5
           net := FetchOutcome.resp true
             (some { reply := "Tell me more.", analysis := EMPTY_METRICS }) ""
           speakErr := none
           cancel := CancelPoint.duringJson }]).foldl reducer initialState).history.length =
      3) ∧
    (((stateTrace initialState (sessionActions false
        [{ cap := CaptureOutcome.ok "I led the project" 5
           net := FetchOutcome.resp true
             (some { reply := "Tell me more.", analysis := EMPTY_METRICS }) ""
           speakErr := none
           cancel := CancelPoint.duringJson }])).get? 8).map
        (fun st => (st.phase, st.allStats.length)) = some (Phase.idle, 0)) ∧
    ((runLoop [{ role := Role.assistant, content := OPENING_QUESTION }]
        { cap := CaptureOutcome.ok "I led the project" 5
          net := FetchOutcome.resp true
            (some { reply := "Tell me more.", analysis := EMPTY_METRICS }) ""
          speakErr := none
          cancel := CancelPoint.duringJson }).running = false) := by
  refine ⟨?_, ?_, ?_, ?_, ?_⟩ <;> with_unfolding_all decide

/-- C2: for every session (any prior state, any opening cancellation, any
sequence of round environments), consecutive states of the dispatch trace
either keep the phase or move it along a row of the §4.1 table
(`phaseTable`), so no phase is skipped and no phase is re-entered without
an intervening different phase. -/
theorem phase_transitions_follow_table (s : InterviewState) (oc : Bool)
    (rounds : List RoundEnv) :
    List.Chain' (fun a b => allowedStep a.phase b.phase)
      (stateTrace s (sessionActions oc rounds)) := by
  rw [chain_stateTrace, sessionActions, phasesOk_append]
  obtain ⟨h1, h2⟩ := openingActions_phasesOk s.phase oc
  refine ⟨h1, ?_⟩
  rw [h2]
  by_cases hoc : oc
  · simp [hoc, phasesOk]
  · rw [if_neg hoc]
    refine runRounds_phasesOk _ _ ?_
    rw [foldl_reducer_phase]
    exact (openingActions_phasesOk initialState.phase oc).2

set_option maxRecDepth 8000 in
/-- C3 counterexample: in a session whose round captures silence
(`{text: "", duration: 0}`), the user turn stored in history carries the
empty string, not the synthetic silence placeholder — refuting the claim
that the stored user turn text is the placeholder. -/
theorem silence_stores_empty_user_turn :
    ((sessionActions false
        [{ cap := CaptureOutcome.ok "" 0
           net := FetchOutcome.resp true
             (some { reply := "Could you tell me more?", analysis := EMPTY_METRICS }) ""
           speakErr := none
           cancel := CancelPoint.never }]).foldl reducer initialState).history =
      [{ role := Role.assistant, content := OPENING_QUESTION },
       { role := Role.user, content := "" },
       { role := Role.assistant, content := "Could you tell me more?" }] ∧
    ("" : String) ≠ SILENCE_PLACEHOLDER := by
  constructor
  · with_unfolding_all decide
  · with_unfolding_all decide

/-- C3 (amended): on whitespace-only capture the round still moves to
processing and appends a user turn, but the stored user turn text is the
EMPTY string; the silence placeholder is substituted only into the request
sent to the endpoint.  The round still produces exactly one user and one
assistant history turn, the stored pacing metric is 0, the round ends in
`idle`, and the loop keeps running. -/
theorem silence_round_amended (hist : List Message) (s : InterviewState)
    (t : String) (d : ℚ) (reply : String) (a : AnalysisMetrics) (e : String)
    (h : jsTrim t = "") :
    (runLoop hist
      { cap := CaptureOutcome.ok t d
        net := FetchOutcome.resp true (some { reply := reply, analysis := a }) e
        speakErr := none
        cancel := CancelPoint.never }).request =
      some (sliceLast10 hist ++ [{ role := Role.user, content := SILENCE_PLACEHOLDER }]) ∧
    Action.START_PROCESSING "" ∈ (runLoop hist
      { cap := CaptureOutcome.ok t d
        net := FetchOutcome.resp true (some { reply := reply, analysis := a }) e
        speakErr := none
        cancel := CancelPoint.never }).actions ∧
    (((runLoop hist
      { cap := CaptureOutcome.ok t d
        net := FetchOutcome.resp true (some { reply := reply, analysis := a }) e
        speakErr := none
        cancel := CancelPoint.never }).actions).foldl reducer s).history =
      s.history ++ [{ role := Role.user, content := "" },
                    { role := Role.assistant, content := reply }] ∧
    (((runLoop hist
      { cap := CaptureOutcome.ok t d
        net := FetchOutcome.resp true (some { reply := reply, analysis := a }) e
        speakErr := none
        cancel := CancelPoint.never }).actions).foldl reducer s).stats.pacing_wpm = 0 ∧
    (((runLoop hist
      { cap := CaptureOutcome.ok t d
        net := FetchOutcome.resp true (some { reply := reply, analysis := a }) e
        speakErr := none
        cancel := CancelPoint.never }).actions).foldl reducer s).phase = Phase.idle ∧
    (runLoop hist
      { cap := CaptureOutcome.ok t d
        net := FetchOutcome.resp true (some { reply := reply, analysis := a }) e
        speakErr := none
        cancel := CancelPoint.never }).running = true := by
  refine ⟨?_, ?_, ?_, ?_, ?_, ?_⟩ <;>
    simp [runLoop, h, reducer, calculateWPM]

/-- C3 witness: the amended silence-round theorem applied at the concrete
silent capture. -/
theorem silence_round_amended_witness :
    jsTrim "" = "" ∧
    (runLoop []
      { cap := CaptureOutcome.ok "" 0
        net := FetchOutcome.resp true
          (some { reply := "Could you expand on that?", analysis := EMPTY_METRICS }) ""
        speakErr := none
        cancel := CancelPoint.never }).request =
      some (sliceLast10 [] ++ [{ role := Role.user, content := SILENCE_PLACEHOLDER }]) :=
  ⟨rfl, (silence_round_amended [] initialState "" 0 "Could you expand on that?"
    EMPTY_METRICS "" rfl).1⟩

/-- C4: every failure of the upstream analysis exchange (transport error,
missing content, unparseable payload, payload missing required fields) is
absorbed by the `POST` handler into a 200 response carrying the fixed
neutral fallback, and a round receiving that fallback proceeds to the
speaking phase like any real reply: no `SET_ERROR` is dispatched, the
visible error field stays `none`, the round closes in `idle`, and the loop
keeps running. -/
theorem endpoint_failure_fallback_round_proceeds (msgs : List Message)
    (up : UpstreamOutcome) (hup : upstreamFailed up = true)
    (hist : List Message) (s : InterviewState) (t : String) (d : ℚ) (e : String) :
    POST (RequestCheck.valid msgs) up =
      { status := 200, body := encodeAPIResponse FALLBACK_RESPONSE } ∧
    ((runLoop hist
        { cap := CaptureOutcome.ok t d
          net := FetchOutcome.resp true (some FALLBACK_RESPONSE) e
          speakErr := none
          cancel := CancelPoint.never }).running = true ∧
     Action.START_SPEAKING ∈ (runLoop hist
        { cap := CaptureOutcome.ok t d
          net := FetchOutcome.resp true (some FALLBACK_RESPONSE) e
          speakErr := none
          cancel := CancelPoint.never }).actions ∧
     (∀ m, Action.SET_ERROR m ∉ (runLoop hist
        { cap := CaptureOutcome.ok t d
          net := FetchOutcome.resp true (some FALLBACK_RESPONSE) e
          speakErr := none
          cancel := CancelPoint.never }).actions) ∧
     (((runLoop hist
        { cap := CaptureOutcome.ok t d
          net := FetchOutcome.resp true (some FALLBACK_RESPONSE) e
          speakErr := none
          cancel := CancelPoint.never }).actions.foldl reducer s).phase = Phase.idle ∧
      ((runLoop hist
        { cap := CaptureOutcome.ok t d
          net := FetchOutcome.resp true (some FALLBACK_RESPONSE) e
          speakErr := none
          cancel := CancelPoint.never }).actions.foldl reducer s).error = none)) := by
  constructor
  · cases up with
    | transportError m => rfl
    | noContent => rfl
    | content parsed =>
        cases parsed with
        | none => rfl
        | some v =>
            simp only [upstreamFailed, Bool.not_eq_true', Bool.and_eq_false_iff] at hup
            rcases hup with h | h <;> simp [POST, h]
  · by_cases hsil : jsTrim t = "" <;>
      simp [runLoop, hsil, reducer]

/-- C4 witness: the fallback theorem applied at a concrete upstream
failure (missing content). -/
theorem endpoint_failure_fallback_witness :
    upstreamFailed UpstreamOutcome.noContent = true ∧
    POST (RequestCheck.valid []) UpstreamOutcome.noContent =
      { status := 200, body := encodeAPIResponse FALLBACK_RESPONSE } :=
  ⟨rfl, (endpoint_failure_fallback_round_proceeds [] UpstreamOutcome.noContent rfl
    [] initialState "hello there" 2 "").1⟩

/-- C5 counterexample: a remote payload with `analysis` present but
`confidence_score` of the wrong type (the string `"high"`) is returned by
the active `POST` handler completely unchanged — not replaced by the
fallback, and with the out-of-contract string still inside — refuting both
the fallback-substitution and the clamping parts of the claim for this
handler. -/
theorem wrong_type_confidence_passthrough :
    POST (RequestCheck.valid [])
        (UpstreamOutcome.content (some (JValue.obj
          [("reply", JValue.str "ok"),
           ("analysis", JValue.obj [("confidence_score", JValue.str "high")])]))) =
      { status := 200
        body := JValue.obj
          [("reply", JValue.str "ok"),
           ("analysis", JValue.obj [("confidence_score", JValue.str "high")])] } ∧
    getField ((getField ((POST (RequestCheck.valid [])
        (UpstreamOutcome.content (some (JValue.obj
          [("reply", JValue.str "ok"),
           ("analysis", JValue.obj [("confidence_score", JValue.str "high")])])))).body)
        "analysis").getD JValue.null) "confidence_score" = some (JValue.str "high") ∧
    (POST (RequestCheck.valid [])
        (UpstreamOutcome.content (some (JValue.obj
          [("reply", JValue.str "ok"),
           ("analysis", JValue.obj [("confidence_score", JValue.str "high")])])))).body ≠
      encodeAPIResponse FALLBACK_RESPONSE := by
  refine ⟨rfl, rfl, ?_⟩
  simp [POST, encodeAPIResponse, encodeMetrics, FALLBACK_RESPONSE, getField,
    isStringJ, jsTruthy]

/-- C5 (amended): the active handler substitutes the fixed fallback when
`analysis` is missing/falsy (never a thrown error), but passes a payload
with a present `analysis` through unchanged, so a wrong-typed
`confidence_score` reaches the orchestrator unclamped; the claimed
clamping to 0–100 and tone coercion exist only in `sanitizeAnalysis` of
the alternate handler (`src/unnamed/part_004`), which in turn answers a
missing `analysis` with a 502 error rather than the fallback. -/
theorem route_validation_amended :
    (∀ (msgs : List Message) (v : JValue),
        jsTruthy (getField v "analysis") = false →
        POST (RequestCheck.valid msgs) (UpstreamOutcome.content (some v)) =
          { status := 200, body := encodeAPIResponse FALLBACK_RESPONSE }) ∧
    (∀ (msgs : List Message) (v : JValue),
        isStringJ (getField v "reply") = true →
        jsTruthy (getField v "analysis") = true →
        POST (RequestCheck.valid msgs) (UpstreamOutcome.content (some v)) =
          { status := 200, body := v }) ∧
    (∀ raw : JValue,
        0 ≤ (sanitizeAnalysis raw).confidence_score ∧
        (sanitizeAnalysis raw).confidence_score ≤ 100 ∧
        0 ≤ (sanitizeAnalysis raw).clarity_score ∧
        (sanitizeAnalysis raw).clarity_score ≤ 100 ∧
        (sanitizeAnalysis raw).pacing_wpm = 0) ∧
    (∀ v : JValue,
        isStringJ (getField v "reply") = true →
        jsTruthy (getField v "analysis") = false →
        (POSTalt true (UpstreamOutcome.content (some v))).status = 502) := by
  refine ⟨?_, ?_, ?_, ?_⟩
  · intro msgs v h
    simp [POST, h]
  · intro msgs v hr ha
    simp [POST, hr, ha]
  · intro raw
    obtain ⟨a1, a2⟩ := clampScore_bounds (getField raw "confidence_score")
    obtain ⟨b1, b2⟩ := clampScore_bounds (getField raw "clarity_score")
    exact ⟨a1, a2, b1, b2, rfl⟩
  · intro v hr ha
    obtain ⟨s, hs⟩ := (isStringJ_iff _).mp hr
    rcases haf : getField v "analysis" with _ | a
    · simp [POSTalt, hs, haf]
    · rw [haf] at ha
      simp [POSTalt, hs, haf, ha]

/-- C5 witness: the amended route-validation theorem applied at a concrete
payload with no `analysis` field. -/
theorem route_validation_amended_witness :
    jsTruthy (getField (JValue.obj [("reply", JValue.str "hi")]) "analysis") = false ∧
    POST (RequestCheck.valid [])
        (UpstreamOutcome.content (some (JValue.obj [("reply", JValue.str "hi")]))) =
      { status := 200, body := encodeAPIResponse FALLBACK_RESPONSE } :=
  ⟨rfl, route_validation_amended.1 [] (JValue.obj [("reply", JValue.str "hi")]) rfl⟩

/-- C6: in every session, the length of `allStats` equals the number of
executed rounds that delivered a real analysis (`analyzedCount`); the
opening dispatch leaves `allStats` empty because it is flagged
`isOpening`, and the reducer appends exactly one entry per non-opening
`RECEIVE_RESPONSE` and none for an opening one. -/
theorem allStats_counts_analyzed_rounds (oc : Bool) (rounds : List RoundEnv) :
    ((sessionActions oc rounds).foldl reducer initialState).allStats.length =
      (if oc then 0
       else analyzedCount ((openingActions oc).foldl reducer initialState) rounds) ∧
    ((openingActions oc).foldl reducer initialState).allStats = [] ∧
    (∀ (s : InterviewState) (r : String) (a : AnalysisMetrics),
        (reducer s (Action.RECEIVE_RESPONSE r a true)).allStats = s.allStats) ∧
    (∀ (s : InterviewState) (r : String) (a : AnalysisMetrics),
        (reducer s (Action.RECEIVE_RESPONSE r a false)).allStats = s.allStats ++ [a]) := by
  refine ⟨?_, ?_, ?_, ?_⟩
  · rw [sessionActions, List.foldl_append]
    by_cases hoc : oc
    · subst hoc
      have hopen : ((openingActions true).foldl reducer initialState).allStats = [] := by
        simp [openingActions, reducer, initialState, EMPTY_METRICS]
      simp [hopen]
    · rw [if_neg hoc, if_neg hoc, runRounds_allStats]
      have hopen : ((openingActions oc).foldl reducer initialState).allStats = [] := by
        cases oc <;> simp [openingActions, reducer, initialState, EMPTY_METRICS]
      rw [hopen]
      simp
  · cases oc <;> simp [openingActions, reducer, initialState, EMPTY_METRICS]
  · intro s r a; simp [reducer]
  · intro s r a; simp [reducer]

/-- C7: for a round with non-silent capture, the pacing metric stored in
the session's current metrics is the client-side
`calculateWPM(text, duration)`, whatever pacing value the endpoint
returned; `calculateWPM` computes `round(wordCount / duration * 60)` for a
positive duration, and on `"one two three four five"` with duration 3 it
is exactly 100. -/
theorem pacing_overrides_endpoint (hist : List Message) (s : InterviewState)
    (t : String) (d : ℚ) (reply : String) (a : AnalysisMetrics) (e : String)
    (h : jsTrim t ≠ "") (hd : 0 < d) :
    (((runLoop hist
        { cap := CaptureOutcome.ok t d
          net := FetchOutcome.resp true (some { reply := reply, analysis := a }) e
          speakErr := none
          cancel := CancelPoint.never }).actions).foldl reducer s).stats.pacing_wpm
        = calculateWPM t d ∧
    calculateWPM t d = ((jsRound ((wordCount t : ℚ) / d * 60) : ℤ) : ℚ) ∧
    calculateWPM "one two three four five" 3 = 100 := by
  refine ⟨?_, ?_, ?_⟩
  · simp [runLoop, h, reducer]
  · simp [calculateWPM, h, not_le.mpr hd]
  · with_unfolding_all decide

/-- C7 witness: the pacing theorem applied at the concrete capture
`{text: "one two three four five", duration: 3}`. -/
theorem pacing_overrides_endpoint_witness :
    jsTrim "one two three four five" ≠ "" ∧ (0 : ℚ) < 3 ∧
    calculateWPM "one two three four five" 3 = 100 :=
  ⟨by decide, by with_unfolding_all decide,
   (pacing_overrides_endpoint [] initialState "one two three four five" 3 "ok"
     EMPTY_METRICS "" (by decide) (by with_unfolding_all decide)).2.2⟩

/-- C8: calling `start()` while the run flag is already set is a complete
no-op: the session state, the run flag and the absence of a newly spawned
loop are all unchanged, for every state and every would-be opening
outcome. -/
theorem start_is_noop_while_running (s : InterviewState) (oc : Bool) :
    startInterview true s oc = (s, true, false) := by
  simp [startInterview]

/-- C9: the transcript `startListening` resolves with is exactly the
concatenation of the segments the recognizer had finalized by
end-of-speech (the finalized results of the last `onresult` event);
interim segments never contribute — filtering them out changes nothing,
and an event with only interim segments yields the empty string. -/
theorem resolved_transcript_finals_only (events : List (List SRResult)) :
    resolvedTranscript events = onresultFinal ((events.getLast?).getD []) ∧
    (∀ ev : List SRResult,
        onresultFinal ev = onresultFinal (ev.filter fun r => r.isFinal)) ∧
    (∀ ev : List SRResult, (∀ r ∈ ev, r.isFinal = false) → onresultFinal ev = "") := by
  refine ⟨?_, onresultFinal_filter, ?_⟩
  · unfold resolvedTranscript
    rw [foldl_const_eval]
    cases h : events.getLast? <;> simp [onresultFinal]
  · intro ev hall
    rw [onresultFinal_filter, List.filter_eq_nil_iff.mpr]
    · rfl
    · intro r hr
      simp [hall r hr]

/-- C10: the `SET_ERROR` transition touches only the phase (set to `idle`)
and the error field; history, stats, allStats and transcript are exactly
those of the previous state. -/
theorem set_error_frame (s : InterviewState) (e : String) :
    (reducer s (Action.SET_ERROR e)).phase = Phase.idle ∧
    (reducer s (Action.SET_ERROR e)).error = some e ∧
    (reducer s (Action.SET_ERROR e)).history = s.history ∧
    (reducer s (Action.SET_ERROR e)).stats = s.stats ∧
    (reducer s (Action.SET_ERROR e)).allStats = s.allStats ∧
    (reducer s (Action.SET_ERROR e)).transcript = s.transcript := by
  simp [reducer]

end Reflect
